import Mathlib

/-!
Shallow embedding of the authentication / session-resolution and
request-pipeline core of the `oornnery/site` repository
(`apps/packages/security/auth.py`, `headers.py`, `pageview.py`,
`apps/packages/services/auth_service.py`, `analytics_service.py`),
together with theorems settling the specification claims about it.
-/

namespace Site

/-! ## Token codec (`apps/packages/security/auth.py`) -/

def JWT_ISSUER : String := "fabiosouza-site"

def JWT_AUDIENCE : String := "fabiosouza-web"

def ACCESS_TOKEN_EXPIRE_MINUTES : Nat := 60 * 24 * 7

/-- The JWT payload after `create_access_token` has populated it.
`sub` is optional because `payload.get("sub")` may find no subject claim.
Times are seconds since the epoch, as in the serialized JWT. -/
structure Claims where
  sub : Option String
  exp : Int
  iat : Int
  iss : String
  aud : String
  jti : String
deriving DecidableEq, Repr

/-- A structurally well-formed (deserializable) JWT: its payload plus the
secret that produced its HMAC signature.  Signature verification succeeds
exactly when the verifying secret equals the signing one. -/
structure SignedToken where
  claims : Claims
  secret : String
deriving DecidableEq, Repr

/-- `create_access_token(data, expires_delta)` with `data = {"sub": sub}`:
stamps `exp = now + expires_delta`, `iat = now`, the fixed issuer and
audience, and a random `jti`, then signs with the process secret.
`now` (the clock), `jti` (the random value) and `secret` are explicit
arguments of the embedding. -/
def create_access_token (sub : Option String) (expires_delta : Int)
    (now : Int) (jti : String) (secret : String) : SignedToken :=
  { claims :=
      { sub := sub
        exp := now + expires_delta
        iat := now
        iss := JWT_ISSUER
        aud := JWT_AUDIENCE
        jti := jti }
    secret := secret }

/-- The verification performed by `jwt.decode(token, secret, algorithms,
issuer, audience)` on a structurally well-formed token: signature, issuer,
audience and expiry (jose: expired iff `exp < now`). Any mismatch raises
`JWTError`, which `decode_access_token` turns into `None`. -/
def verifyToken (st : SignedToken) (secret : String) (now : Int) : Option Claims :=
  if st.secret = secret ∧ st.claims.iss = JWT_ISSUER ∧
     st.claims.aud = JWT_AUDIENCE ∧ now ≤ st.claims.exp
  then some st.claims
  else none

/-- `decode_access_token(token) -> payload | None`.  `parse` embeds the
deserialization of the compact JWT string (base64 segments + JSON): it
yields the structurally well-formed token a string denotes, or `none`
for garbage strings; verification then runs on the parsed token. -/
def decode_access_token (parse : String → Option SignedToken)
    (secret : String) (now : Int) (token : String) : Option Claims :=
  match parse token with
  | none => none
  | some st => verifyToken st secret now

/-! ## Account store (`apps/packages/domain/models/user.py`) -/

/-- The `users` row fields the documented core reads.  `id` is the UUID as
its 128-bit integer value; `hashed_password` is nullable. -/
structure User where
  id : Nat
  email : String
  hashed_password : Option String
  is_admin : Bool
  is_banned : Bool
deriving DecidableEq, Repr

/-- `session.get(User, uuid)`: primary-key lookup. -/
def dbGet (db : List User) (uid : Nat) : Option User :=
  db.find? (fun u => u.id = uid)

/-! ## UUID parsing (`uuid.UUID(str(user_id))`) -/

def isHexDigit (c : Char) : Bool :=
  c.isDigit || ('a' ≤ c && c ≤ 'f') || ('A' ≤ c && c ≤ 'F')

def hexDigitVal (c : Char) : Nat :=
  if c.isDigit then c.toNat - 48
  else if 'a' ≤ c then c.toNat - 87
  else c.toNat - 55

/-- Strip leading and trailing braces, as `hex.strip('{}')` does. -/
def stripBraces (l : List Char) : List Char :=
  (((l.dropWhile (fun c => c = '{' || c = '}')).reverse.dropWhile
      (fun c => c = '{' || c = '}')).reverse)

/-- Remove every occurrence of the character `c`. -/
def removeChar (c : Char) (l : List Char) : List Char :=
  l.filter (fun x => x ≠ c)

def removeSubstrAux (pat : List Char) : Nat → List Char → List Char
  | 0, l => l
  | _ + 1, [] => []
  | fuel + 1, c :: rest =>
      if pat ≠ [] ∧ pat.isPrefixOf (c :: rest) then
        removeSubstrAux pat fuel ((c :: rest).drop pat.length)
      else
        c :: removeSubstrAux pat fuel rest

/-- Remove every occurrence of the substring `pat` (Python
`str.replace(pat, "")`), scanning left to right. -/
def removeSubstr (pat l : List Char) : List Char :=
  removeSubstrAux pat l.length l

/-- `uuid.UUID(hex)`: drop `urn:` and `uuid:`, strip braces, drop hyphens,
then require exactly 32 hexadecimal digits; the value is their base-16
reading.  (The extra leniency of Python `int(_, 16)` — underscores, sign,
`0x` — is not modelled; no claim depends on accepting such strings.) -/
def parseUUID (s : String) : Option Nat :=
  let l := removeChar '-'
    (stripBraces (removeSubstr "uuid:".data (removeSubstr "urn:".data s.data)))
  if l.length = 32 ∧ l.all isHexDigit then
    some (l.foldl (fun acc c => acc * 16 + hexDigitVal c) 0)
  else
    none

/-! ## String helpers (structural embeddings of `str.lower`, `str.split`,
`str.startswith`, `in`) -/

/-- ASCII lowercasing of one character, as `Char.toLower` / Python
`str.lower` do on the ASCII range (the only range these comparisons
exercise). -/
def charLower (c : Char) : Char :=
  if 65 ≤ c.toNat ∧ c.toNat ≤ 90 then Char.ofNat (c.toNat + 32) else c

def toLowerStr (s : String) : String :=
  String.mk (s.data.map charLower)

/-- Python `s.startswith(p)`. -/
def startsWithStr (s p : String) : Bool :=
  p.data.isPrefixOf s.data

def splitOnAuxL (sep : List Char) : Nat → List Char → List Char → List (List Char)
  | 0, acc, l => [acc.reverse ++ l]
  | _ + 1, acc, [] => [acc.reverse]
  | fuel + 1, acc, c :: rest =>
      if sep ≠ [] ∧ sep.isPrefixOf (c :: rest) then
        acc.reverse :: splitOnAuxL sep fuel [] ((c :: rest).drop sep.length)
      else
        splitOnAuxL sep fuel (c :: acc) rest

/-- Python `s.split(sep)` for a nonempty separator: every non-overlapping
occurrence splits, left to right. -/
def splitOnStr (s sep : String) : List String :=
  (splitOnAuxL sep.data s.data.length [] s.data).map String.mk

/-! ## Cookie extraction and session resolution -/

/-- `raw.partition(" ")` restricted to the two components the code uses:
the part before the first space, and everything after it (empty when no
space occurs). -/
def partitionSpace : List Char → List Char × List Char
  | [] => ([], [])
  | c :: cs =>
      if c = ' ' then ([], cs)
      else
        let p := partitionSpace cs
        (c :: p.1, p.2)

/-- `_extract_token_from_cookie`: reads the `access_token` cookie (here the
`cookie` argument, `none` when absent), splits on the first space, and
requires the scheme `bearer` (case-insensitively) and a nonempty token. -/
def extract_token_from_cookie (cookie : Option String) : Option String :=
  match cookie with
  | none => none
  | some raw =>
      if raw = "" then none
      else
        let p := partitionSpace raw.data
        let scheme := String.mk p.1
        let token := String.mk p.2
        if toLowerStr scheme = "bearer" ∧ token ≠ "" then some token else none

/-- `_get_user_from_token`: decode, read the subject claim (rejecting a
missing or empty one), parse it as a UUID (a `ValueError` yields `None`),
load the account, and reject missing or banned accounts. -/
def get_user_from_token (parse : String → Option SignedToken)
    (secret : String) (now : Int) (db : List User) (token : String) :
    Option User :=
  match decode_access_token parse secret now token with
  | none => none
  | some payload =>
      match payload.sub with
      | none => none
      | some uidStr =>
          if uidStr = "" then none
          else
            match parseUUID uidStr with
            | none => none
            | some uid =>
                match dbGet db uid with
                | none => none
                | some user => if user.is_banned then none else some user

/-- `get_current_user_optional`: anonymous (`none`) unless a token extracts
from the cookie and resolves to a live account. -/
def get_current_user_optional (parse : String → Option SignedToken)
    (secret : String) (now : Int) (db : List User)
    (cookie : Option String) : Option User :=
  match extract_token_from_cookie cookie with
  | none => none
  | some token => get_user_from_token parse secret now db token

/-- `get_current_user`: the same resolution, raising `HTTPException(401)`
(here `Except.error 401`) when no token extracts or the token does not
resolve to a live account. -/
def get_current_user (parse : String → Option SignedToken)
    (secret : String) (now : Int) (db : List User)
    (cookie : Option String) : Except Nat User :=
  match extract_token_from_cookie cookie with
  | none => Except.error 401
  | some token =>
      match get_user_from_token parse secret now db token with
      | none => Except.error 401
      | some user => Except.ok user

/-- `get_current_admin_user`: depends on `get_current_user`, then raises
`HTTPException(403)` when the resolved account lacks the admin flag. -/
def get_current_admin_user (parse : String → Option SignedToken)
    (secret : String) (now : Int) (db : List User)
    (cookie : Option String) : Except Nat User :=
  match get_current_user parse secret now db cookie with
  | Except.error e => Except.error e
  | Except.ok user =>
      if user.is_admin then Except.ok user else Except.error 403

/-! ## Password verification (`auth.py`, `auth_service.py`) -/

/-- `verify_password`: an empty stored hash verifies nothing; otherwise
defer to `bcrypt.checkpw` (embedded as the argument `checkpw`). -/
def verify_password (checkpw : String → String → Bool)
    (plain_password hashed_password : String) : Bool :=
  if hashed_password = "" then false
  else checkpw plain_password hashed_password

/-- `AuthService.get_user_by_email`. -/
def get_user_by_email (db : List User) (email : String) : Option User :=
  db.find? (fun u => u.email = email)

/-- `AuthService.authenticate_user`: no account, a null or empty stored
hash, or a failed password check all yield `None`. -/
def authenticate_user (checkpw : String → String → Bool)
    (db : List User) (email password : String) : Option User :=
  match get_user_by_email db email with
  | none => none
  | some user =>
      match user.hashed_password with
      | none => none
      | some hp =>
          if hp = "" then none
          else if verify_password checkpw password hp then some user
          else none

/-! ## SHA-256 (`hashlib.sha256(ip.encode()).hexdigest()`), over `Nat`
with explicit reduction mod 2^32 -/

def w32 (n : Nat) : Nat := n % 4294967296

def rotr (n x : Nat) : Nat := (x / 2 ^ n) + (x % 2 ^ n) * 2 ^ (32 - n)

def shr (n x : Nat) : Nat := x / 2 ^ n

def ssig0 (x : Nat) : Nat := (rotr 7 x) ^^^ (rotr 18 x) ^^^ (shr 3 x)

def ssig1 (x : Nat) : Nat := (rotr 17 x) ^^^ (rotr 19 x) ^^^ (shr 10 x)

def bsig0 (x : Nat) : Nat := (rotr 2 x) ^^^ (rotr 13 x) ^^^ (rotr 22 x)

def bsig1 (x : Nat) : Nat := (rotr 6 x) ^^^ (rotr 11 x) ^^^ (rotr 25 x)

def K256 : List Nat :=
  [1116352408, 1899447441, 3049323471, 3921009573,
   961987163, 1508970993, 2453635748, 2870763221,
   3624381080, 310598401, 607225278, 1426881987,
   1925078388, 2162078206, 2614888103, 3248222580,
   3835390401, 4022224774, 264347078, 604807628,
   770255983, 1249150122, 1555081692, 1996064986,
   2554220882, 2821834349, 2952996808, 3210313671,
   3336571891, 3584528711, 113926993, 338241895,
   666307205, 773529912, 1294757372, 1396182291,
   1695183700, 1986661051, 2177026350, 2456956037,
   2730485921, 2820302411, 3259730800, 3345764771,
   3516065817, 3600352804, 4094571909, 275423344,
   430227734, 506948616, 659060556, 883997877,
   958139571, 1322822218, 1537002063, 1747873779,
   1955562222, 2024104815, 2227730452, 2361852424,
   2428436474, 2756734187, 3204031479, 3329325298]

/-- Big-endian byte expansion of `n` into `k` bytes. -/
def beBytes : Nat → Nat → List Nat
  | 0, _ => []
  | k + 1, n => beBytes k (n / 256) ++ [n % 256]

/-- UTF-8 encoding of one character (`str.encode()`), as byte values. -/
def utf8Bytes (c : Char) : List Nat :=
  let n := c.toNat
  if n < 128 then [n]
  else if n < 2048 then [192 + n / 64, 128 + n % 64]
  else if n < 65536 then [224 + n / 4096, 128 + n / 64 % 64, 128 + n % 64]
  else [240 + n / 262144, 128 + n / 4096 % 64, 128 + n / 64 % 64, 128 + n % 64]

/-- Merkle–Damgård padding: `0x80`, zeros to 56 mod 64, then the 64-bit
big-endian bit length. -/
def sha256Pad (msg : List Nat) : List Nat :=
  let L := msg.length
  msg ++ [128] ++ List.replicate ((120 - (L + 1) % 64) % 64) 0 ++ beBytes 8 (8 * L)

/-- Group bytes into big-endian 32-bit words. -/
def bytesToWords : List Nat → List Nat
  | b0 :: b1 :: b2 :: b3 :: rest =>
      (((b0 * 256 + b1) * 256 + b2) * 256 + b3) :: bytesToWords rest
  | _ => []

def chunks64Aux : Nat → List Nat → List (List Nat)
  | 0, _ => []
  | _ + 1, [] => []
  | fuel + 1, c :: rest => ((c :: rest).take 64) :: chunks64Aux fuel ((c :: rest).drop 64)

/-- Split into 64-byte blocks. -/
def chunks64 (l : List Nat) : List (List Nat) :=
  chunks64Aux l.length l

/-- Extend the 16-word block schedule by `n` more words. -/
def extendSchedule : Nat → Array Nat → Array Nat
  | 0, ws => ws
  | n + 1, ws =>
      let i := ws.size
      let wNew := w32 ((ws.getD (i - 16) 0) + ssig0 (ws.getD (i - 15) 0) +
                       (ws.getD (i - 7) 0) + ssig1 (ws.getD (i - 2) 0))
      extendSchedule n (ws.push wNew)

/-- The eight 32-bit working variables / chaining values. -/
structure Hash8 where
  a : Nat
  b : Nat
  c : Nat
  d : Nat
  e : Nat
  f : Nat
  g : Nat
  h : Nat
deriving DecidableEq, Repr

def compressStep (st : Hash8) (kw : Nat × Nat) : Hash8 :=
  let ch := (st.e &&& st.f) ^^^ ((st.e ^^^ 4294967295) &&& st.g)
  let maj := (st.a &&& st.b) ^^^ (st.a &&& st.c) ^^^ (st.b &&& st.c)
  let t1 := w32 (st.h + bsig1 st.e + ch + kw.1 + kw.2)
  let t2 := w32 (bsig0 st.a + maj)
  { a := w32 (t1 + t2), b := st.a, c := st.b, d := st.c,
    e := w32 (st.d + t1), f := st.e, g := st.f, h := st.g }

def processBlock (H : Hash8) (block : List Nat) : Hash8 :=
  let W := extendSchedule 48 (bytesToWords block).toArray
  let st := (K256.zip W.toList).foldl compressStep H
  { a := w32 (H.a + st.a), b := w32 (H.b + st.b), c := w32 (H.c + st.c),
    d := w32 (H.d + st.d), e := w32 (H.e + st.e), f := w32 (H.f + st.f),
    g := w32 (H.g + st.g), h := w32 (H.h + st.h) }

def sha256Init : Hash8 :=
  ⟨1779033703, 3144134277, 1013904242, 2773480762,
   1359893119, 2600822924, 528734635, 1541459225⟩

def sha256Words (s : String) : Hash8 :=
  (chunks64 (sha256Pad ((s.data.map utf8Bytes).flatten))).foldl processBlock sha256Init

def hexChar (n : Nat) : Char :=
  if n < 10 then Char.ofNat (48 + n) else Char.ofNat (87 + n)

def wordHex (w : Nat) : List Char :=
  [hexChar (w / 16 ^ 7 % 16), hexChar (w / 16 ^ 6 % 16),
   hexChar (w / 16 ^ 5 % 16), hexChar (w / 16 ^ 4 % 16),
   hexChar (w / 16 ^ 3 % 16), hexChar (w / 16 ^ 2 % 16),
   hexChar (w / 16 % 16), hexChar (w % 16)]

/-- `hashlib.sha256(s.encode()).hexdigest()`. -/
def sha256Hex (s : String) : String :=
  let H := sha256Words s
  String.mk (wordHex H.a ++ wordHex H.b ++ wordHex H.c ++ wordHex H.d ++
             wordHex H.e ++ wordHex H.f ++ wordHex H.g ++ wordHex H.h)

/-! ## Request pipeline (`headers.py`, `pageview.py`) -/

/-- The request fields the pipeline reads.  `client` is
`request.client.host` (`none` when `request.client` is null); header
lookup is case-insensitive as in Starlette. -/
structure Request where
  method : String
  path : String
  headers : List (String × String)
  client : Option String
deriving DecidableEq, Repr

def headerGet (headers : List (String × String)) (k : String) : Option String :=
  (headers.find? (fun p => toLowerStr p.1 = toLowerStr k)).map (fun p => p.2)

structure Response where
  status_code : Nat
  content : String
  headers : List (String × String)
deriving DecidableEq, Repr

/-- `response.headers[k] = v` (overwrite). -/
def setHeader (r : Response) (k v : String) : Response :=
  { r with headers :=
      (k, v) :: r.headers.filter (fun p => toLowerStr p.1 ≠ toLowerStr k) }

def SKIP_HTMX_VALIDATION : List String :=
  ["/static/", "/favicon.ico", "/health", "/api/healthz"]

def should_skip_htmx_validation (req : Request) : Bool :=
  SKIP_HTMX_VALIDATION.any (fun skip => startsWithStr req.path skip)

/-- `url.split("://")[-1].split("/")[0]`. -/
def urlHost (url : String) : String :=
  ((splitOnStr ((splitOnStr url "://").getLastD "") "/").headD "")

/-- Python `needle in hay`: `needle` occurs as a contiguous substring. -/
def containsStr (hay needle : String) : Bool :=
  (List.range (hay.data.length + 1)).any
    (fun i => needle.data.isPrefixOf (hay.data.drop i))

/-- `SecurityMiddleware._validate_htmx_request`: requests without the
`HX-Request` marker pass; otherwise the `Origin` host, or failing that the
`Referer` host, must equal the `Host` header, with a development-mode
allowance for local hostnames. -/
def validate_htmx_request (is_development : Bool) (req : Request) : Bool :=
  match headerGet req.headers "HX-Request" with
  | none => true
  | some hx =>
      if hx = "" then true
      else
        let origin := (headerGet req.headers "Origin").getD ""
        let referer := (headerGet req.headers "Referer").getD ""
        let host := (headerGet req.headers "Host").getD ""
        if origin ≠ "" ∧ urlHost origin = host then true
        else if referer ≠ "" ∧ urlHost referer = host then true
        else if is_development ∧
            (containsStr host "localhost" ∨ containsStr host "127.0.0.1") then true
        else false

def prodCSP : String :=
  "default-src \x27self\x27; script-src \x27self\x27 https://cdn.tailwindcss.com https://unpkg.com; style-src \x27self\x27 \x27unsafe-inline\x27 https://fonts.googleapis.com https://cdn.tailwindcss.com; font-src \x27self\x27 https://fonts.gstatic.com; img-src \x27self\x27 data: https:; connect-src \x27self\x27; frame-ancestors \x27none\x27;"

def devCSP : String :=
  "default-src \x27self\x27; script-src \x27self\x27 \x27unsafe-inline\x27 \x27unsafe-eval\x27 https://cdn.tailwindcss.com https://unpkg.com; style-src \x27self\x27 \x27unsafe-inline\x27 https://fonts.googleapis.com https://cdn.tailwindcss.com; font-src \x27self\x27 https://fonts.gstatic.com; img-src \x27self\x27 data: https:; connect-src \x27self\x27 ws://localhost:* http://localhost:*; frame-ancestors \x27none\x27;"

/-- The header-hardening tail of `SecurityMiddleware.dispatch`, applied to
the response obtained from `call_next`. -/
def applySecurityHeaders (is_production : Bool) (request_id : String)
    (response : Response) : Response :=
  let r := setHeader response "X-Request-ID" request_id
  let r := setHeader r "X-Content-Type-Options" "nosniff"
  let r := setHeader r "X-Frame-Options" "DENY"
  let r := setHeader r "X-XSS-Protection" "1; mode=block"
  let r := setHeader r "Referrer-Policy" "strict-origin-when-cross-origin"
  let r := setHeader r "Permissions-Policy" "geolocation=(), microphone=(), camera=()"
  setHeader r "Content-Security-Policy" (if is_production then prodCSP else devCSP)

/-- `SecurityMiddleware.dispatch`.  `fresh_id` embeds the freshly generated
`uuid4` used when no `X-Request-ID` header is present.  A failed HTMX
validation returns the 403 response immediately, bypassing `call_next`
and the header hardening. -/
def security_dispatch (is_development is_production : Bool)
    (fresh_id : String) (req : Request) (call_next : Request → Response) :
    Response :=
  let request_id := (headerGet req.headers "X-Request-ID").getD fresh_id
  if ¬ should_skip_htmx_validation req ∧
     ¬ validate_htmx_request is_development req then
    { status_code := 403, content := "Invalid HTMX request origin",
      headers := [("X-Request-ID", request_id)] }
  else
    applySecurityHeaders is_production request_id (call_next req)

/-! ## Pageview capture (`pageview.py`, `analytics_service.py`) -/

/-- The `pageviews` row fields written by the documented core. -/
structure PageView where
  app : String
  path : String
  referrer : Option String
  ua : Option String
  ip_hash : Option String
deriving DecidableEq, Repr

/-- `AnalyticsService.hash_ip`: `None` for a null or empty address,
otherwise the SHA-256 hex digest of the UTF-8 encoded address. -/
def hash_ip (ip : Option String) : Option String :=
  match ip with
  | none => none
  | some s => if s = "" then none else some (sha256Hex s)

/-- `AnalyticsService.track_pageview`: inserts exactly one row. -/
def track_pageview (store : List PageView) (app_name path : String)
    (referrer user_agent : Option String) (ip : Option String) :
    List PageView :=
  store ++ [{ app := app_name, path := path, referrer := referrer,
              ua := user_agent, ip_hash := hash_ip ip }]

def PAGEVIEW_SKIP_PATHS : List String :=
  ["/static", "/api/healthz", "/healthz", "/status"]

/-- `PageviewMiddleware.dispatch`: produce the response first, then —
for a GET outside the denylist with a success-class status — record one
pageview from the route path, referrer, user agent and hashed client IP.
The detached write is embedded as the returned store. -/
def pageview_dispatch (app_name : String) (req : Request)
    (call_next : Request → Response) (store : List PageView) :
    Response × List PageView :=
  let response := call_next req
  if req.method ≠ "GET" then (response, store)
  else if PAGEVIEW_SKIP_PATHS.any (fun p => startsWithStr req.path p) then
    (response, store)
  else if 400 ≤ response.status_code then (response, store)
  else
    (response,
     track_pageview store app_name req.path (headerGet req.headers "referer")
       (headerGet req.headers "user-agent") req.client)

/-! ## Helper lemmas -/

theorem mk_data (s : String) : String.mk s.data = s := rfl

theorem partitionSpace_bearer (l : List Char) :
    partitionSpace ("Bearer ".data ++ l) = ("Bearer".data, l) := by
  show partitionSpace
      ('B' :: 'e' :: 'a' :: 'r' :: 'e' :: 'r' :: ' ' :: l) =
    (['B', 'e', 'a', 'r', 'e', 'r'], l)
  simp [partitionSpace]

theorem extract_bearer (t : String) :
    extract_token_from_cookie (some ("Bearer " ++ t)) =
      if t = "" then none else some t := by
  have hne : ("Bearer " ++ t) = "" → False := by
    intro h
    have h2 := congrArg String.data h
    rw [String.data_append] at h2
    simp [String.data] at h2
  simp only [extract_token_from_cookie]
  rw [if_neg hne, String.data_append, partitionSpace_bearer]
  have h1 : toLowerStr (String.mk "Bearer".data) = "bearer" := by decide
  rw [h1, mk_data]
  by_cases ht : t = "" <;> simp [ht]

theorem optional_bearer (parse : String → Option SignedToken)
    (secret : String) (now : Int) (db : List User) (t : String) :
    get_current_user_optional parse secret now db (some ("Bearer " ++ t)) =
      if t = "" then none else get_user_from_token parse secret now db t := by
  unfold get_current_user_optional
  rw [extract_bearer]
  by_cases ht : t = "" <;> simp [ht]

/-! ## Claim C1 -/

/-- C1: a token correctly signed with the process secret, unexpired,
carrying the expected issuer and audience, whose subject is the id of an
existing, non-banned account, resolves through `get_current_user_optional`
(over a `Bearer` cookie carrying it) to exactly that account, at every
instant within its validity window — hence resolving it twice within the
window yields the same account. -/
theorem C1_valid_token_resolves_subject
    (parse : String → Option SignedToken) (secret : String) (db : List User)
    (tokenStr s : String) (st : SignedToken) (uid : Nat) (u : User)
    (htok : tokenStr ≠ "")
    (hparse : parse tokenStr = some st)
    (hsecret : st.secret = secret)
    (hiss : st.claims.iss = JWT_ISSUER)
    (haud : st.claims.aud = JWT_AUDIENCE)
    (hsub : st.claims.sub = some s) (hne : s ≠ "")
    (huuid : parseUUID s = some uid)
    (hacct : dbGet db uid = some u)
    (hban : u.is_banned = false) :
    (∀ now : Int, now ≤ st.claims.exp →
        get_current_user_optional parse secret now db
          (some ("Bearer " ++ tokenStr)) = some u) ∧
    (∀ now1 now2 : Int, now1 ≤ st.claims.exp → now2 ≤ st.claims.exp →
        get_current_user_optional parse secret now1 db
          (some ("Bearer " ++ tokenStr)) =
        get_current_user_optional parse secret now2 db
          (some ("Bearer " ++ tokenStr))) := by
  have key : ∀ now : Int, now ≤ st.claims.exp →
      get_current_user_optional parse secret now db
        (some ("Bearer " ++ tokenStr)) = some u := by
    intro now hnow
    rw [optional_bearer, if_neg htok]
    unfold get_user_from_token decode_access_token verifyToken
    rw [hparse]
    simp only [if_pos (And.intro hsecret (And.intro hiss (And.intro haud hnow)))]
    rw [hsub]
    simp only [if_neg hne, huuid, hacct, hban]
    simp
  refine ⟨key, ?_⟩
  intro now1 now2 h1 h2
  rw [key now1 h1, key now2 h2]

/-- Witness for C1 at a concrete token, clock and account store. -/
theorem C1_valid_token_resolves_subject_witness :
    get_current_user_optional
      (fun x => if x = "tok"
        then some (⟨⟨some "123e4567-e89b-12d3-a456-426614174000", 100, 0,
                     JWT_ISSUER, JWT_AUDIENCE, "j"⟩, "sec"⟩ : SignedToken)
        else none)
      "sec" 50
      [⟨0x123e4567e89b12d3a456426614174000, "a@b.c", none, true, false⟩]
      (some ("Bearer " ++ "tok")) =
      some ⟨0x123e4567e89b12d3a456426614174000, "a@b.c", none, true, false⟩ :=
  (C1_valid_token_resolves_subject
    (fun x => if x = "tok"
      then some (⟨⟨some "123e4567-e89b-12d3-a456-426614174000", 100, 0,
                   JWT_ISSUER, JWT_AUDIENCE, "j"⟩, "sec"⟩ : SignedToken)
      else none)
    "sec"
    [⟨0x123e4567e89b12d3a456426614174000, "a@b.c", none, true, false⟩]
    "tok" "123e4567-e89b-12d3-a456-426614174000"
    (⟨⟨some "123e4567-e89b-12d3-a456-426614174000", 100, 0,
       JWT_ISSUER, JWT_AUDIENCE, "j"⟩, "sec"⟩ : SignedToken)
    0x123e4567e89b12d3a456426614174000
    ⟨0x123e4567e89b12d3a456426614174000, "a@b.c", none, true, false⟩
    (by decide) (by decide) rfl rfl rfl rfl (by decide) (by decide)
    (by decide) rfl).1 50 (by decide)

/-- Evaluation of `get_user_from_token` once the token string parses. -/
theorem get_user_from_token_eq (parse : String → Option SignedToken)
    (secret : String) (now : Int) (db : List User) (t : String)
    (st : SignedToken) (hp : parse t = some st) :
    get_user_from_token parse secret now db t =
      if st.secret = secret ∧ st.claims.iss = JWT_ISSUER ∧
         st.claims.aud = JWT_AUDIENCE ∧ now ≤ st.claims.exp then
        match st.claims.sub with
        | none => none
        | some s =>
            if s = "" then none
            else
              match parseUUID s with
              | none => none
              | some uid =>
                  match dbGet db uid with
                  | none => none
                  | some user => if user.is_banned then none else some user
      else none := by
  unfold get_user_from_token decode_access_token verifyToken
  rw [hp]
  by_cases hc : st.secret = secret ∧ st.claims.iss = JWT_ISSUER ∧
      st.claims.aud = JWT_AUDIENCE ∧ now ≤ st.claims.exp
  · simp only [if_pos hc]
  · simp only [if_neg hc]

theorem required_bearer (parse : String → Option SignedToken)
    (secret : String) (now : Int) (db : List User) (t : String) :
    get_current_user parse secret now db (some ("Bearer " ++ t)) =
      if t = "" then Except.error 401
      else
        match get_user_from_token parse secret now db t with
        | none => Except.error 401
        | some u => Except.ok u := by
  unfold get_current_user
  rw [extract_bearer]
  by_cases ht : t = "" <;> simp [ht]

/-! ## Claim C2 -/

/-- C2: optional session resolution returns `none` uniformly when the
cookie is absent, the cookie value is malformed (wrong scheme or empty
token), the token string does not parse, the signature was made with a
different secret, the token is expired, the subject resolves to no
account, or the subject's account is banned — the account store `db` is
the one seen by the current request, so a token minted while the account
was live still resolves to `none` once the store marks it banned. -/
theorem C2_resolution_failures_uniform_none
    (parse : String → Option SignedToken) (secret : String) (now : Int)
    (db : List User) :
    (get_current_user_optional parse secret now db none = none) ∧
    (∀ raw : String,
        (toLowerStr (String.mk (partitionSpace raw.data).1) ≠ "bearer" ∨
         String.mk (partitionSpace raw.data).2 = "") →
        get_current_user_optional parse secret now db (some raw) = none) ∧
    (∀ t : String, parse t = none →
        get_current_user_optional parse secret now db
          (some ("Bearer " ++ t)) = none) ∧
    (∀ (t : String) (st : SignedToken), parse t = some st →
        st.secret ≠ secret →
        get_current_user_optional parse secret now db
          (some ("Bearer " ++ t)) = none) ∧
    (∀ (t : String) (st : SignedToken), parse t = some st →
        st.claims.exp < now →
        get_current_user_optional parse secret now db
          (some ("Bearer " ++ t)) = none) ∧
    (∀ (t s : String) (st : SignedToken) (uid : Nat), parse t = some st →
        st.claims.sub = some s → parseUUID s = some uid →
        dbGet db uid = none →
        get_current_user_optional parse secret now db
          (some ("Bearer " ++ t)) = none) ∧
    (∀ (t s : String) (st : SignedToken) (uid : Nat) (u : User),
        parse t = some st →
        st.claims.sub = some s → parseUUID s = some uid →
        dbGet db uid = some u → u.is_banned = true →
        get_current_user_optional parse secret now db
          (some ("Bearer " ++ t)) = none) := by
  refine ⟨rfl, ?_, ?_, ?_, ?_, ?_, ?_⟩
  · intro raw hbad
    simp only [get_current_user_optional, extract_token_from_cookie]
    by_cases hraw : raw = ""
    · simp [hraw]
    · rw [if_neg hraw]
      have hcond : ¬ (toLowerStr (String.mk (partitionSpace raw.data).1) =
          "bearer" ∧ String.mk (partitionSpace raw.data).2 ≠ "") := by
        rcases hbad with h | h
        · exact fun hc => h hc.1
        · exact fun hc => hc.2 h
      rw [if_neg hcond]
  · intro t hp
    rw [optional_bearer]
    by_cases ht : t = ""
    · simp [ht]
    · rw [if_neg ht]
      unfold get_user_from_token decode_access_token
      rw [hp]
  · intro t st hp hs
    rw [optional_bearer]
    by_cases ht : t = ""
    · simp [ht]
    · rw [if_neg ht, get_user_from_token_eq parse secret now db t st hp]
      rw [if_neg (fun hc => hs hc.1)]
  · intro t st hp hexp
    rw [optional_bearer]
    by_cases ht : t = ""
    · simp [ht]
    · rw [if_neg ht, get_user_from_token_eq parse secret now db t st hp]
      rw [if_neg (fun hc => absurd hc.2.2.2 (not_le.mpr hexp))]
  · intro t s st uid hp hsub huuid hdb
    rw [optional_bearer]
    by_cases ht : t = ""
    · simp [ht]
    · rw [if_neg ht, get_user_from_token_eq parse secret now db t st hp]
      by_cases hc : st.secret = secret ∧ st.claims.iss = JWT_ISSUER ∧
          st.claims.aud = JWT_AUDIENCE ∧ now ≤ st.claims.exp
      · rw [if_pos hc, hsub]
        by_cases hs0 : s = ""
        · simp [hs0]
        · simp only [if_neg hs0, huuid, hdb]
      · rw [if_neg hc]
  · intro t s st uid u hp hsub huuid hdb hban
    rw [optional_bearer]
    by_cases ht : t = ""
    · simp [ht]
    · rw [if_neg ht, get_user_from_token_eq parse secret now db t st hp]
      by_cases hc : st.secret = secret ∧ st.claims.iss = JWT_ISSUER ∧
          st.claims.aud = JWT_AUDIENCE ∧ now ≤ st.claims.exp
      · rw [if_pos hc, hsub]
        by_cases hs0 : s = ""
        · simp [hs0]
        · simp only [if_neg hs0, huuid, hdb, hban, if_true]
      · rw [if_neg hc]

/-- Witness for C2: a token signed with a different secret, presented as a
cookie, resolves to no account; and the banned-account case at the same
store. -/
theorem C2_resolution_failures_uniform_none_witness :
    get_current_user_optional
      (fun x => if x = "tok"
        then some (⟨⟨some "123e4567-e89b-12d3-a456-426614174000", 100, 0,
                     JWT_ISSUER, JWT_AUDIENCE, "j"⟩, "other"⟩ : SignedToken)
        else none)
      "sec" 50 [] (some ("Bearer " ++ "tok")) = none :=
  (C2_resolution_failures_uniform_none
    (fun x => if x = "tok"
      then some (⟨⟨some "123e4567-e89b-12d3-a456-426614174000", 100, 0,
                   JWT_ISSUER, JWT_AUDIENCE, "j"⟩, "other"⟩ : SignedToken)
      else none)
    "sec" 50 []).2.2.2.1 "tok"
    (⟨⟨some "123e4567-e89b-12d3-a456-426614174000", 100, 0,
       JWT_ISSUER, JWT_AUDIENCE, "j"⟩, "other"⟩ : SignedToken)
    (by decide) (by decide)

/-! ## Claim C7 -/

/-- C7: required session resolution distinguishes its two failure
conditions: any request whose cookie yields no token, or whose token does
not resolve to a live account, gets `401` from `get_current_user`; a
request that resolves to a valid account lacking the admin flag gets
`403` from `get_current_admin_user` instead (and passes when the flag is
set). -/
theorem C7_unauthenticated_vs_forbidden
    (parse : String → Option SignedToken) (secret : String) (now : Int)
    (db : List User) :
    (get_current_user parse secret now db none = Except.error 401) ∧
    (∀ cookie : Option String, extract_token_from_cookie cookie = none →
        get_current_user parse secret now db cookie = Except.error 401) ∧
    (∀ (cookie : Option String) (t : String),
        extract_token_from_cookie cookie = some t →
        get_user_from_token parse secret now db t = none →
        get_current_user parse secret now db cookie = Except.error 401) ∧
    (∀ (cookie : Option String) (u : User),
        get_current_user parse secret now db cookie = Except.ok u →
        u.is_admin = false →
        get_current_admin_user parse secret now db cookie =
          Except.error 403) ∧
    (∀ (cookie : Option String) (u : User),
        get_current_user parse secret now db cookie = Except.ok u →
        u.is_admin = true →
        get_current_admin_user parse secret now db cookie = Except.ok u) := by
  refine ⟨rfl, ?_, ?_, ?_, ?_⟩
  · intro cookie hext
    unfold get_current_user
    rw [hext]
  · intro cookie t hext hres
    unfold get_current_user
    rw [hext]
    simp only [hres]
  · intro cookie u hok hadm
    unfold get_current_admin_user
    rw [hok]
    simp [hadm]
  · intro cookie u hok hadm
    unfold get_current_admin_user
    rw [hok]
    simp [hadm]

/-- Witness for C7: a live non-admin account yields `403` from the admin
guard while `get_current_user` accepted it. -/
theorem C7_unauthenticated_vs_forbidden_witness :
    get_current_admin_user
      (fun x => if x = "tok"
        then some (⟨⟨some "123e4567-e89b-12d3-a456-426614174000", 100, 0,
                     JWT_ISSUER, JWT_AUDIENCE, "j"⟩, "sec"⟩ : SignedToken)
        else none)
      "sec" 50
      [⟨0x123e4567e89b12d3a456426614174000, "a@b.c", none, false, false⟩]
      (some "Bearer tok") = Except.error 403 :=
  (C7_unauthenticated_vs_forbidden
    (fun x => if x = "tok"
      then some (⟨⟨some "123e4567-e89b-12d3-a456-426614174000", 100, 0,
                   JWT_ISSUER, JWT_AUDIENCE, "j"⟩, "sec"⟩ : SignedToken)
      else none)
    "sec" 50
    [⟨0x123e4567e89b12d3a456426614174000, "a@b.c", none, false, false⟩]).2.2.2.1
    (some "Bearer tok")
    ⟨0x123e4567e89b12d3a456426614174000, "a@b.c", none, false, false⟩
    rfl rfl

/-! ## Claim C9 -/

/-- C9: malformed session input never surfaces an exception: a cookie not
of the form `bearer <nonempty token>` (case-insensitive scheme), a token
whose payload has no subject claim or an empty one, and a subject that
does not parse as a UUID, all yield `none` from optional resolution and
the `401` condition from required resolution. -/
theorem C9_malformed_input_safe
    (parse : String → Option SignedToken) (secret : String) (now : Int)
    (db : List User) :
    (∀ raw : String,
        (toLowerStr (String.mk (partitionSpace raw.data).1) ≠ "bearer" ∨
         String.mk (partitionSpace raw.data).2 = "") →
        get_current_user_optional parse secret now db (some raw) = none ∧
        get_current_user parse secret now db (some raw) =
          Except.error 401) ∧
    (∀ (t : String) (st : SignedToken), parse t = some st →
        st.claims.sub = none →
        get_current_user_optional parse secret now db
          (some ("Bearer " ++ t)) = none ∧
        get_current_user parse secret now db (some ("Bearer " ++ t)) =
          Except.error 401) ∧
    (∀ (t : String) (st : SignedToken), parse t = some st →
        st.claims.sub = some "" →
        get_current_user_optional parse secret now db
          (some ("Bearer " ++ t)) = none ∧
        get_current_user parse secret now db (some ("Bearer " ++ t)) =
          Except.error 401) ∧
    (∀ (t s : String) (st : SignedToken), parse t = some st →
        st.claims.sub = some s → parseUUID s = none →
        get_current_user_optional parse secret now db
          (some ("Bearer " ++ t)) = none ∧
        get_current_user parse secret now db (some ("Bearer " ++ t)) =
          Except.error 401) := by
  have hext : ∀ raw : String,
      (toLowerStr (String.mk (partitionSpace raw.data).1) ≠ "bearer" ∨
       String.mk (partitionSpace raw.data).2 = "") →
      extract_token_from_cookie (some raw) = none := by
    intro raw hbad
    simp only [extract_token_from_cookie]
    by_cases hraw : raw = ""
    · simp [hraw]
    · rw [if_neg hraw]
      have hcond : ¬ (toLowerStr (String.mk (partitionSpace raw.data).1) =
          "bearer" ∧ String.mk (partitionSpace raw.data).2 ≠ "") := by
        rcases hbad with h | h
        · exact fun hc => h hc.1
        · exact fun hc => hc.2 h
      rw [if_neg hcond]
  have hsubtok : ∀ (t s : String) (st : SignedToken), parse t = some st →
      st.claims.sub = some s → parseUUID s = none →
      get_user_from_token parse secret now db t = none := by
    intro t s st hp hsub huuid
    rw [get_user_from_token_eq parse secret now db t st hp]
    by_cases hc : st.secret = secret ∧ st.claims.iss = JWT_ISSUER ∧
        st.claims.aud = JWT_AUDIENCE ∧ now ≤ st.claims.exp
    · rw [if_pos hc, hsub]
      by_cases hs0 : s = ""
      · simp [hs0]
      · simp only [if_neg hs0, huuid]
    · rw [if_neg hc]
  have hnonetok : ∀ (t : String) (st : SignedToken), parse t = some st →
      st.claims.sub = none →
      get_user_from_token parse secret now db t = none := by
    intro t st hp hsub
    rw [get_user_from_token_eq parse secret now db t st hp]
    by_cases hc : st.secret = secret ∧ st.claims.iss = JWT_ISSUER ∧
        st.claims.aud = JWT_AUDIENCE ∧ now ≤ st.claims.exp
    · rw [if_pos hc, hsub]
    · rw [if_neg hc]
  have hemptytok : ∀ (t : String) (st : SignedToken), parse t = some st →
      st.claims.sub = some "" →
      get_user_from_token parse secret now db t = none := by
    intro t st hp hsub
    rw [get_user_from_token_eq parse secret now db t st hp]
    by_cases hc : st.secret = secret ∧ st.claims.iss = JWT_ISSUER ∧
        st.claims.aud = JWT_AUDIENCE ∧ now ≤ st.claims.exp
    · rw [if_pos hc, hsub]
      simp
    · rw [if_neg hc]
  have both : ∀ (t : String),
      get_user_from_token parse secret now db t = none →
      get_current_user_optional parse secret now db
        (some ("Bearer " ++ t)) = none ∧
      get_current_user parse secret now db (some ("Bearer " ++ t)) =
        Except.error 401 := by
    intro t hres
    rw [optional_bearer, required_bearer]
    by_cases ht : t = ""
    · simp [ht]
    · rw [if_neg ht, if_neg ht, hres]
      exact ⟨rfl, rfl⟩
  refine ⟨?_, ?_, ?_, ?_⟩
  · intro raw hbad
    constructor
    · unfold get_current_user_optional
      rw [hext raw hbad]
    · unfold get_current_user
      rw [hext raw hbad]
  · intro t st hp hsub
    exact both t (hnonetok t st hp hsub)
  · intro t st hp hsub
    exact both t (hemptytok t st hp hsub)
  · intro t s st hp hsub huuid
    exact both t (hsubtok t s st hp hsub huuid)

/-- Witness for C9: a cookie with a non-bearer scheme is anonymous for the
optional resolver and `401` for the required one. -/
theorem C9_malformed_input_safe_witness :
    get_current_user_optional (fun _ => none) "sec" 0 []
      (some "Basic abc") = none ∧
    get_current_user (fun _ => none) "sec" 0 [] (some "Basic abc") =
      Except.error 401 :=
  (C9_malformed_input_safe (fun _ => none) "sec" 0 []).1 "Basic abc"
    (by decide)

/-! ## Claim C8 -/

/-- C8: round-trip of the token codec: a token minted by
`create_access_token` with subject `sub` and positive ttl decodes, with
the same secret and at any instant up to its expiry, to claims carrying
the original subject, the fixed issuer and audience, the issue time, an
expiry equal to issue time plus ttl, and the minted jti; and verification
is total — any mismatch of signature, issuer, audience or expiry yields
the invalid (`none`) result rather than an exception. -/
theorem C8_token_codec_roundtrip
    (parse : String → Option SignedToken) (secret jti : String)
    (sub : Option String) (ttl now : Int) (tokenStr : String)
    (_httl : 0 < ttl)
    (hp : parse tokenStr = some (create_access_token sub ttl now jti secret)) :
    (∀ now2 : Int, now2 ≤ now + ttl →
        decode_access_token parse secret now2 tokenStr =
          some { sub := sub, exp := now + ttl, iat := now,
                 iss := JWT_ISSUER, aud := JWT_AUDIENCE, jti := jti }) ∧
    (∀ (st : SignedToken) (secret2 : String) (now2 : Int),
        ¬ (st.secret = secret2 ∧ st.claims.iss = JWT_ISSUER ∧
           st.claims.aud = JWT_AUDIENCE ∧ now2 ≤ st.claims.exp) →
        verifyToken st secret2 now2 = none) := by
  constructor
  · intro now2 hnow2
    simp [decode_access_token, hp, create_access_token, verifyToken, hnow2]
  · intro st secret2 now2 hmis
    unfold verifyToken
    rw [if_neg hmis]

/-- Witness for C8 at a concrete mint and decode instant. -/
theorem C8_token_codec_roundtrip_witness :
    decode_access_token
      (fun x => if x = "tok"
        then some (create_access_token (some "u") 100 0 "j" "sec")
        else none)
      "sec" 50 "tok" =
      some { sub := some "u", exp := (0 : Int) + 100, iat := 0,
             iss := JWT_ISSUER, aud := JWT_AUDIENCE, jti := "j" } :=
  (C8_token_codec_roundtrip
    (fun x => if x = "tok"
      then some (create_access_token (some "u") 100 0 "j" "sec")
      else none)
    "sec" "j" (some "u") 100 0 "tok" (by decide) (by decide)).1 50 (by decide)

/-! ## Claim C10 -/

/-- C10: accounts without a stored password hash can never authenticate by
password: `verify_password` is `false` against an empty stored hash for
every password and every `bcrypt` behaviour, and `authenticate_user`
yields `None` for an account whose stored hash is null or empty. -/
theorem C10_no_password_hash_never_authenticates
    (checkpw : String → String → Bool) (db : List User) (email : String) :
    (∀ password : String, verify_password checkpw password "" = false) ∧
    (∀ (password : String) (u : User),
        get_user_by_email db email = some u →
        (u.hashed_password = none ∨ u.hashed_password = some "") →
        authenticate_user checkpw db email password = none) := by
  refine ⟨fun _ => rfl, ?_⟩
  intro password u hu hh
  unfold authenticate_user
  rcases hh with h | h <;> simp [hu, h]

/-- Witness for C10: an externally-authenticated account (null hash) does
not authenticate even under a `checkpw` that accepts everything. -/
theorem C10_no_password_hash_never_authenticates_witness :
    authenticate_user (fun _ _ => true)
      [⟨1, "a@b.c", none, true, false⟩] "a@b.c" "pw" = none :=
  (C10_no_password_hash_never_authenticates (fun _ _ => true)
    [⟨1, "a@b.c", none, true, false⟩] "a@b.c").2 "pw"
    ⟨1, "a@b.c", none, true, false⟩ rfl (Or.inl rfl)

/-! ## Header lemmas for the security middleware -/

theorem find?_filter_of_imp {α : Type} (l : List α) (p q : α → Bool)
    (h : ∀ x, q x = true → p x = true) :
    (l.filter p).find? q = l.find? q := by
  induction l with
  | nil => rfl
  | cons a t ih =>
      by_cases hq : q a
      · simp [List.filter_cons, List.find?_cons, hq, h a hq]
      · by_cases hpa : p a <;>
          simp [List.filter_cons, List.find?_cons, hq, hpa, ih]

theorem headerGet_setHeader_same (r : Response) (k v : String) :
    headerGet (setHeader r k v).headers k = some v := by
  simp [headerGet, setHeader, List.find?_cons]

theorem headerGet_setHeader_other (r : Response) (k v k' : String)
    (h : toLowerStr k' ≠ toLowerStr k) :
    headerGet (setHeader r k v).headers k' = headerGet r.headers k' := by
  unfold headerGet setHeader
  rw [List.find?_cons_of_neg, find?_filter_of_imp]
  · intro x hx
    simp only [decide_eq_true_eq] at hx
    simp only [ne_eq, decide_eq_true_eq, decide_not]
    simp [hx, h]
  · simp
    intro hk
    exact absurd hk.symm h

theorem setHeader_status (r : Response) (k v : String) :
    (setHeader r k v).status_code = r.status_code := rfl

/-- The security-header hardening sets every fixed header and the
mode-dependent content-security-policy, leaving the status untouched. -/
theorem applySecurityHeaders_spec (is_production : Bool) (rid : String)
    (resp : Response) :
    headerGet (applySecurityHeaders is_production rid resp).headers
        "X-Content-Type-Options" = some "nosniff" ∧
    headerGet (applySecurityHeaders is_production rid resp).headers
        "X-Frame-Options" = some "DENY" ∧
    headerGet (applySecurityHeaders is_production rid resp).headers
        "X-XSS-Protection" = some "1; mode=block" ∧
    headerGet (applySecurityHeaders is_production rid resp).headers
        "Referrer-Policy" = some "strict-origin-when-cross-origin" ∧
    headerGet (applySecurityHeaders is_production rid resp).headers
        "Permissions-Policy" = some "geolocation=(), microphone=(), camera=()" ∧
    headerGet (applySecurityHeaders is_production rid resp).headers
        "Content-Security-Policy" =
      some (if is_production then prodCSP else devCSP) ∧
    (applySecurityHeaders is_production rid resp).status_code =
      resp.status_code := by
  unfold applySecurityHeaders
  refine ⟨?_, ?_, ?_, ?_, ?_, ?_, rfl⟩ <;>
    repeat first
      | rw [headerGet_setHeader_same]
      | rw [headerGet_setHeader_other _ _ _ _ (by decide)]

/-! ## Claim C6 (corrected) -/

/-- C6 fails as stated: the HTMX-origin rejection response is returned
before the header-hardening code runs, so it carries neither the fixed
security headers nor a content-security-policy — here a concrete rejected
partial-page request whose response lacks both. -/
theorem C6_counterexample :
    headerGet
      (security_dispatch false true "rid"
        { method := "GET", path := "/page",
          headers := [("HX-Request", "true"), ("Origin", "http://evil.com"),
                      ("Host", "example.com")],
          client := none }
        (fun _ => { status_code := 200, content := "", headers := [] })).headers
      "X-Content-Type-Options" = none ∧
    headerGet
      (security_dispatch false true "rid"
        { method := "GET", path := "/page",
          headers := [("HX-Request", "true"), ("Origin", "http://evil.com"),
                      ("Host", "example.com")],
          client := none }
        (fun _ => { status_code := 200, content := "", headers := [] })).headers
      "Content-Security-Policy" = none := by decide

/-- C6 (amended): every response produced for a request that passes (or
skips) the HTMX origin guard carries the fixed security headers and the
mode-selected content-security-policy; the guard's early rejection
response is the one exception and carries only the request id. -/
theorem C6_security_headers_on_responses
    (is_development is_production : Bool) (fresh_id : String)
    (req : Request) (call_next : Request → Response)
    (h : should_skip_htmx_validation req = true ∨
         validate_htmx_request is_development req = true) :
    headerGet (security_dispatch is_development is_production fresh_id req
        call_next).headers "X-Content-Type-Options" = some "nosniff" ∧
    headerGet (security_dispatch is_development is_production fresh_id req
        call_next).headers "X-Frame-Options" = some "DENY" ∧
    headerGet (security_dispatch is_development is_production fresh_id req
        call_next).headers "X-XSS-Protection" = some "1; mode=block" ∧
    headerGet (security_dispatch is_development is_production fresh_id req
        call_next).headers "Referrer-Policy" =
      some "strict-origin-when-cross-origin" ∧
    headerGet (security_dispatch is_development is_production fresh_id req
        call_next).headers "Permissions-Policy" =
      some "geolocation=(), microphone=(), camera=()" ∧
    headerGet (security_dispatch is_development is_production fresh_id req
        call_next).headers "Content-Security-Policy" =
      some (if is_production then prodCSP else devCSP) := by
  have hcond : ¬ (¬ (should_skip_htmx_validation req = true) ∧
      ¬ (validate_htmx_request is_development req = true)) := by
    rcases h with h | h <;> simp [h]
  unfold security_dispatch
  rw [if_neg hcond]
  obtain ⟨h1, h2, h3, h4, h5, h6, _⟩ := applySecurityHeaders_spec
    is_production ((headerGet req.headers "X-Request-ID").getD fresh_id)
    (call_next req)
  exact ⟨h1, h2, h3, h4, h5, h6⟩

/-- Witness for the amended C6: a plain request (no HTMX marker) in
production mode gets all fixed headers and the production CSP. -/
theorem C6_security_headers_on_responses_witness :
    headerGet (security_dispatch false true "rid"
        { method := "GET", path := "/page", headers := [], client := none }
        (fun _ => { status_code := 200, content := "",
                    headers := [] })).headers
      "X-Content-Type-Options" = some "nosniff" ∧
    headerGet (security_dispatch false true "rid"
        { method := "GET", path := "/page", headers := [], client := none }
        (fun _ => { status_code := 200, content := "",
                    headers := [] })).headers
      "X-Frame-Options" = some "DENY" ∧
    headerGet (security_dispatch false true "rid"
        { method := "GET", path := "/page", headers := [], client := none }
        (fun _ => { status_code := 200, content := "",
                    headers := [] })).headers
      "X-XSS-Protection" = some "1; mode=block" ∧
    headerGet (security_dispatch false true "rid"
        { method := "GET", path := "/page", headers := [], client := none }
        (fun _ => { status_code := 200, content := "",
                    headers := [] })).headers
      "Referrer-Policy" = some "strict-origin-when-cross-origin" ∧
    headerGet (security_dispatch false true "rid"
        { method := "GET", path := "/page", headers := [], client := none }
        (fun _ => { status_code := 200, content := "",
                    headers := [] })).headers
      "Permissions-Policy" = some "geolocation=(), microphone=(), camera=()" ∧
    headerGet (security_dispatch false true "rid"
        { method := "GET", path := "/page", headers := [], client := none }
        (fun _ => { status_code := 200, content := "",
                    headers := [] })).headers
      "Content-Security-Policy" = some (if true then prodCSP else devCSP) :=
  C6_security_headers_on_responses false true "rid"
    { method := "GET", path := "/page", headers := [], client := none }
    (fun _ => { status_code := 200, content := "", headers := [] })
    (Or.inr (by decide))

/-! ## Claim C3 (corrected) -/

/-- C3 fails as stated: a partial-page request whose `Origin` host differs
from `Host`, outside development mode, is still accepted when its
`Referer` host matches `Host` — the guard also consults `Referer`.  Here
such a request reaches the handler (status 200, not 403). -/
theorem C3_counterexample :
    urlHost "http://evil.com" ≠ "example.com" ∧
    validate_htmx_request false
      { method := "GET", path := "/page",
        headers := [("HX-Request", "true"), ("Origin", "http://evil.com"),
                    ("Referer", "http://example.com/page"),
                    ("Host", "example.com")],
        client := none } = true ∧
    (security_dispatch false false "rid"
      { method := "GET", path := "/page",
        headers := [("HX-Request", "true"), ("Origin", "http://evil.com"),
                    ("Referer", "http://example.com/page"),
                    ("Host", "example.com")],
        client := none }
      (fun _ => { status_code := 200, content := "ok",
                  headers := [] })).status_code = 200 := by decide

/-- C3 (amended): outside development mode, a partial-page request to a
non-skipped path whose `Origin` host differs from `Host` AND whose
`Referer` is absent, empty, or also has a host differing from `Host`, is
rejected with the fixed 403 response before any route handler runs (the
result is the same for every handler); and a partial-page request whose
`Origin` host matches `Host` passes the guard — the handler's response,
with hardened headers, is returned. -/
theorem C3_htmx_origin_guard
    (is_production : Bool) (fresh_id : String) (req : Request)
    (hx origin host : String) (call_next : Request → Response)
    (hskip : should_skip_htmx_validation req = false)
    (hhx : headerGet req.headers "HX-Request" = some hx) (hhxne : hx ≠ "")
    (hor : (headerGet req.headers "Origin").getD "" = origin)
    (_hone : origin ≠ "")
    (hhost : (headerGet req.headers "Host").getD "" = host)
    (homis : urlHost origin ≠ host)
    (href : (headerGet req.headers "Referer").getD "" = "" ∨
            urlHost ((headerGet req.headers "Referer").getD "") ≠ host) :
    (security_dispatch false is_production fresh_id req call_next =
      { status_code := 403, content := "Invalid HTMX request origin",
        headers := [("X-Request-ID",
          (headerGet req.headers "X-Request-ID").getD fresh_id)] }) ∧
    (∀ (is_development : Bool) (req2 : Request) (origin2 host2 : String)
        (cn2 : Request → Response),
        (headerGet req2.headers "Origin").getD "" = origin2 → origin2 ≠ "" →
        (headerGet req2.headers "Host").getD "" = host2 →
        urlHost origin2 = host2 →
        security_dispatch is_development is_production fresh_id req2 cn2 =
          applySecurityHeaders is_production
            ((headerGet req2.headers "X-Request-ID").getD fresh_id)
            (cn2 req2)) := by
  constructor
  · have hval : validate_htmx_request false req = false := by
      simp only [validate_htmx_request, hhx]
      rw [if_neg hhxne, hor, hhost]
      rw [if_neg (fun hc => homis hc.2)]
      rcases href with h | h
      · rw [if_neg (fun hc => hc.1 h)]
        simp
      · rw [if_neg (fun hc => h hc.2)]
        simp
    unfold security_dispatch
    rw [if_pos ⟨by simp [hskip], by simp [hval]⟩]
  · intro is_development req2 origin2 host2 cn2 hor2 hone2 hhost2 hmatch
    have hval2 : validate_htmx_request is_development req2 = true := by
      unfold validate_htmx_request
      cases hHX : headerGet req2.headers "HX-Request" with
      | none => rfl
      | some hx2 =>
          by_cases hx2e : hx2 = ""
          · simp [hx2e]
          · simp only [if_neg hx2e]
            rw [hor2, hhost2]
            rw [if_pos ⟨hone2, hmatch⟩]
    unfold security_dispatch
    rw [if_neg (fun hc => hc.2 hval2)]

/-- Witness for the amended C3: a concrete cross-origin partial-page
request with no `Referer` is rejected with the fixed 403 response. -/
theorem C3_htmx_origin_guard_witness :
    security_dispatch false false "rid"
      { method := "GET", path := "/page",
        headers := [("HX-Request", "true"), ("Origin", "http://evil.com"),
                    ("Host", "example.com")],
        client := none }
      (fun _ => { status_code := 200, content := "ok", headers := [] }) =
      { status_code := 403, content := "Invalid HTMX request origin",
        headers := [("X-Request-ID",
          (headerGet [("HX-Request", "true"), ("Origin", "http://evil.com"),
                      ("Host", "example.com")] "X-Request-ID").getD "rid")] } :=
  (C3_htmx_origin_guard false "rid"
    { method := "GET", path := "/page",
      headers := [("HX-Request", "true"), ("Origin", "http://evil.com"),
                  ("Host", "example.com")],
      client := none }
    "true" "http://evil.com" "example.com"
    (fun _ => { status_code := 200, content := "ok", headers := [] })
    (by decide) (by decide) (by decide) (by decide) (by decide)
    (by decide) (by decide) (Or.inl (by decide))).1

/-! ## Claim C4 -/

/-- C4: the pageview capture stage leaves the pageview store unchanged for
every non-GET request, for every GET whose path starts with a denylisted
prefix, and for every request whose response status is in the error class
(≥ 400). -/
theorem C4_pageview_skip_conditions (app_name : String) (req : Request)
    (call_next : Request → Response) (store : List PageView) :
    (req.method ≠ "GET" →
        (pageview_dispatch app_name req call_next store).2 = store) ∧
    (PAGEVIEW_SKIP_PATHS.any (fun p => startsWithStr req.path p) = true →
        (pageview_dispatch app_name req call_next store).2 = store) ∧
    (400 ≤ (call_next req).status_code →
        (pageview_dispatch app_name req call_next store).2 = store) := by
  unfold pageview_dispatch
  refine ⟨?_, ?_, ?_⟩ <;> intro h
  · simp [h]
  · by_cases hm : req.method = "GET" <;> simp [hm, h]
  · by_cases hm : req.method = "GET"
    · by_cases hp : PAGEVIEW_SKIP_PATHS.any
          (fun p => startsWithStr req.path p) = true <;> simp [hm, hp, h]
    · simp [hm]

/-- Witness for C4: a POST, a GET to a static path, and a 404 response
each leave the store unchanged. -/
theorem C4_pageview_skip_conditions_witness :
    (pageview_dispatch "blog"
      { method := "POST", path := "/page", headers := [], client := none }
      (fun _ => { status_code := 200, content := "", headers := [] })
      []).2 = [] ∧
    (pageview_dispatch "blog"
      { method := "GET", path := "/static/app.css", headers := [],
        client := none }
      (fun _ => { status_code := 200, content := "", headers := [] })
      []).2 = [] ∧
    (pageview_dispatch "blog"
      { method := "GET", path := "/missing", headers := [], client := none }
      (fun _ => { status_code := 404, content := "", headers := [] })
      []).2 = [] :=
  ⟨(C4_pageview_skip_conditions "blog"
      { method := "POST", path := "/page", headers := [], client := none }
      (fun _ => { status_code := 200, content := "", headers := [] })
      []).1 (by decide),
   (C4_pageview_skip_conditions "blog"
      { method := "GET", path := "/static/app.css", headers := [],
        client := none }
      (fun _ => { status_code := 200, content := "", headers := [] })
      []).2.1 (by decide),
   (C4_pageview_skip_conditions "blog"
      { method := "GET", path := "/missing", headers := [], client := none }
      (fun _ => { status_code := 404, content := "", headers := [] })
      []).2.2 (by decide)⟩

/-! ## Claim C5 -/

theorem sha256Hex_length (s : String) : (sha256Hex s).length = 64 := by
  simp [sha256Hex, wordHex, String.length_mk]

/-- C5: a successful (status < 400) GET to a non-denylisted path with a
non-empty client IP appends exactly one pageview, whose stored IP field
is the 64-character SHA-256 hex digest of the address — never the literal
address itself, the address being shorter than the digest (textual IPs
are at most 45 characters). -/
theorem C5_pageview_ip_hashed (app_name : String) (req : Request)
    (call_next : Request → Response) (store : List PageView) (ip : String)
    (hm : req.method = "GET")
    (hp : PAGEVIEW_SKIP_PATHS.any (fun p => startsWithStr req.path p) = false)
    (hs : (call_next req).status_code < 400)
    (hc : req.client = some ip) (hip : ip ≠ "") :
    (pageview_dispatch app_name req call_next store).2 =
      store ++ [{ app := app_name, path := req.path,
                  referrer := headerGet req.headers "referer",
                  ua := headerGet req.headers "user-agent",
                  ip_hash := some (sha256Hex ip) }] ∧
    ((pageview_dispatch app_name req call_next store).2).length =
      store.length + 1 ∧
    (sha256Hex ip).length = 64 ∧
    (ip.length ≠ 64 → sha256Hex ip ≠ ip) := by
  have hnot : ¬ (400 ≤ (call_next req).status_code) := not_le.mpr hs
  have hmain : (pageview_dispatch app_name req call_next store).2 =
      store ++ [{ app := app_name, path := req.path,
                  referrer := headerGet req.headers "referer",
                  ua := headerGet req.headers "user-agent",
                  ip_hash := some (sha256Hex ip) }] := by
    unfold pageview_dispatch track_pageview hash_ip
    simp [hm, hp, hnot, hc, hip]
  refine ⟨hmain, ?_, sha256Hex_length ip, ?_⟩
  · rw [hmain]
    simp
  · intro hlen heq
    apply hlen
    have := congrArg String.length heq
    rw [sha256Hex_length] at this
    exact this.symm

/-- Witness for C5: a successful GET with client IP `1.2.3.4` records one
pageview holding the digest, and the digest differs from the address. -/
theorem C5_pageview_ip_hashed_witness :
    (pageview_dispatch "blog"
      { method := "GET", path := "/posts", headers := [],
        client := some "1.2.3.4" }
      (fun _ => { status_code := 200, content := "", headers := [] })
      []).2 =
      [] ++ [{ app := "blog", path := "/posts",
               referrer := headerGet [] "referer",
               ua := headerGet [] "user-agent",
               ip_hash := some (sha256Hex "1.2.3.4") }] ∧
    sha256Hex "1.2.3.4" ≠ "1.2.3.4" :=
  ⟨((C5_pageview_ip_hashed "blog"
      { method := "GET", path := "/posts", headers := [],
        client := some "1.2.3.4" }
      (fun _ => { status_code := 200, content := "", headers := [] })
      [] "1.2.3.4" rfl (by decide) (by decide) rfl (by decide)).1),
   ((C5_pageview_ip_hashed "blog"
      { method := "GET", path := "/posts", headers := [],
        client := some "1.2.3.4" }
      (fun _ => { status_code := 200, content := "", headers := [] })
      [] "1.2.3.4" rfl (by decide) (by decide) rfl (by decide)).2.2.2
      (by decide))⟩

end Site
